import Mathlib

/-!
Verification development for the media upload / HLS transcode / range-serving
server in `src/index.js`. Pure fragments of the JavaScript are embedded as
executable Lean definitions; the stateful request handlers are embedded as
functions from an explicit pre-state (filesystem facts, parsed headers, engine
outcome) to a response record.

Conventions: JS strings are `String`, file contents are `List Nat` (byte
values), JS `parseInt` results are `Option Int` (`none` = `NaN`), HTTP
responses are explicit records.
-/

/- ### Generic character-list helpers (JS string primitives) -/

/-- Digits of a char list folded into a number (used by the `parseInt` model). -/
def digitsToNat (ds : List Char) : Nat :=
  ds.foldl (fun acc c => acc * 10 + (c.toNat - 48)) 0

/-- Model of JavaScript `parseInt(s, 10)`: skip leading whitespace, optional
sign, then the longest digit run; `none` models `NaN` (no digits). -/
def jsParseInt (cs : List Char) : Option Int :=
  match cs.dropWhile (fun c => c = ' ' ∨ c = '\t' ∨ c = '\n' ∨ c = '\r') with
  | '-' :: rest =>
    let ds := rest.takeWhile Char.isDigit
    if ds = [] then none else some (-(digitsToNat ds : Int))
  | '+' :: rest =>
    let ds := rest.takeWhile Char.isDigit
    if ds = [] then none else some ((digitsToNat ds : Int))
  | trimmed =>
    let ds := trimmed.takeWhile Char.isDigit
    if ds = [] then none else some ((digitsToNat ds : Int))

/-- Split a char list on a separator character, keeping empty pieces, exactly
like JavaScript `String.prototype.split` with a one-character separator. -/
def splitOnCharAux (sep : Char) : List Char → List Char → List (List Char)
  | [], acc => [acc.reverse]
  | c :: rest, acc =>
    if c = sep then acc.reverse :: splitOnCharAux sep rest []
    else splitOnCharAux sep rest (c :: acc)

/-- Entry point of the split: see `splitOnCharAux`. -/
def splitOnChar (sep : Char) (cs : List Char) : List (List Char) :=
  splitOnCharAux sep cs []

/-- Whether `pat` occurs at the head of `cs`. -/
def matchesAt : List Char → List Char → Bool
  | [], _ => true
  | _ :: _, [] => false
  | p :: ps, c :: cs => p == c && matchesAt ps cs

/-- Remove the first occurrence of `pat` from a char list; models
`s.replace(/pat/, "")` for a literal pattern (replaces only the first match). -/
def removeFirstOccur (pat : List Char) : List Char → List Char
  | [] => []
  | c :: cs =>
    if matchesAt pat (c :: cs) then (c :: cs).drop pat.length
    else c :: removeFirstOccur pat cs

/-- ASCII lowercasing of one character (the fragment of `toLowerCase` the
source relies on: extensions are ASCII). -/
def asciiToLower (c : Char) : Char :=
  if 65 ≤ c.toNat ∧ c.toNat ≤ 90 then Char.ofNat (c.toNat + 32) else c

/-- Position of the last dot in a char list, tracked with the running index. -/
def lastDotPosAux : List Char → Nat → Option Nat → Option Nat
  | [], _, best => best
  | c :: rest, i, best =>
    lastDotPosAux rest (i + 1) (if c == '.' then some i else best)

/-- Model of node `path.extname` on a basename: the suffix from the last dot,
empty when there is no dot or the only dot starts the name. -/
def extname (filename : String) : String :=
  match lastDotPosAux filename.data 0 none with
  | none => ""
  | some 0 => ""
  | some i => String.mk (filename.data.drop i)

/-- The `path.extname(filename).toLowerCase()` expression of `getMimeType`. -/
def extLower (filename : String) : String :=
  String.mk ((extname filename).data.map asciiToLower)

/-- Model of JavaScript `v || dflt` on an optional string (`undefined` and the
empty string are falsy). -/
def jsOrDefault (v : Option String) (dflt : String) : String :=
  match v with
  | some s => if s = "" then dflt else s
  | none => dflt

/-- First-match lookup in an association list of strings (a JS object literal
used as a table). -/
def assocLookup (key : String) : List (String × String) → Option String
  | [] => none
  | (k, v) :: rest => if k == key then some v else assocLookup key rest

/- ### Configuration from `src/index.js` -/

/-- Allowed media MIME types for streaming (`mediaMimeTypes`, lines 23-30). -/
def mediaMimeTypes : List String :=
  ["video/mp4", "video/mkv", "video/webm", "video/avi", "video/quicktime"]

/-- The extension-to-MIME table inside `getMimeType` (lines 850-862). -/
def mimeTypesTable : List (String × String) :=
  [(".mp4", "video/mp4"),
   (".mkv", "video/x-matroska"),
   (".webm", "video/webm"),
   (".avi", "video/x-msvideo"),
   (".mov", "video/quicktime"),
   (".pdf", "application/pdf"),
   (".docx", "application/vnd.openxmlformats-officedocument.wordprocessingml.document"),
   (".txt", "text/plain"),
   (".m3u8", "application/x-mpegURL"),
   (".ts", "video/MP2T")]

/-- `getMimeType` (lines 848-864): extension-derived MIME type with an
`application/octet-stream` default. -/
def getMimeType (filename : String) : String :=
  match assocLookup (extLower filename) mimeTypesTable with
  | some m => m
  | none => "application/octet-stream"

/-- The MIME-to-extension table inside `getExtensionFromMime` (lines 868-880). -/
def mimeToExtTable : List (String × String) :=
  [("video/mp4", ".mp4"),
   ("video/x-matroska", ".mkv"),
   ("video/webm", ".webm"),
   ("video/x-msvideo", ".avi"),
   ("video/quicktime", ".mov"),
   ("application/pdf", ".pdf"),
   ("application/vnd.openxmlformats-officedocument.wordprocessingml.document", ".docx"),
   ("text/plain", ".txt"),
   ("application/x-mpegURL", ".m3u8"),
   ("video/MP2T", ".ts")]

/-- `getExtensionFromMime` (lines 867-882), defaulting to the empty string. -/
def getExtensionFromMime (mimeType : String) : String :=
  match assocLookup mimeType mimeToExtTable with
  | some e => e
  | none => ""

/-- `sanitizeFilename` (lines 894-896): replace every character outside
`[A-Za-z0-9._-]` with an underscore. `isAllowedChar` is the complement of the
regex class `[^a-zA-Z0-9.\-_]`. -/
def isAllowedChar (c : Char) : Bool :=
  decide (('a' ≤ c ∧ c ≤ 'z') ∨ ('A' ≤ c ∧ c ≤ 'Z') ∨ ('0' ≤ c ∧ c ≤ '9')
          ∨ c = '.' ∨ c = '-' ∨ c = '_')

/-- The sanitizer itself: see `isAllowedChar`. -/
def sanitizeFilename (filename : String) : String :=
  String.mk (filename.data.map (fun c => if isAllowedChar c then c else '_'))

/-- The multer `diskStorage` filename callback (lines 79-84): the stored name
is exactly the sanitized original name, with no uniqueness token. -/
def multerStoredName (originalname : String) : String :=
  sanitizeFilename originalname

/-- The `isMedia` classification of `POST /upload` (line 403): membership of
the declared MIME type in `mediaMimeTypes`. -/
def uploadIsMedia (declaredMimeType : String) : Bool :=
  mediaMimeTypes.contains declaredMimeType

/- ### The range-aware media server (`GET /uploads/:filename`, lines 787-843) -/

/-- A stored file in the uploads directory: name and byte content. -/
structure StoredFile where
  name : String
  bytes : List Nat
deriving DecidableEq, Repr

/-- The response assembled by the server: status, the headers the source sets,
the streamed bytes, a plain-text body for error branches, and whether a read
stream was opened on the underlying file. -/
structure HttpResponse where
  status : Nat
  contentRange : Option String := none
  acceptRanges : Option String := none
  contentLength : Option Int := none
  contentType : Option String := none
  body : List Nat := []
  textBody : Option String := none
  openedStream : Bool := false
deriving DecidableEq, Repr

/-- Line 810: `range.replace(/bytes=/, "").split("-")`. -/
def rangeParts (range : String) : List (List Char) :=
  splitOnChar '-' (removeFirstOccur "bytes=".data range.data)

/-- Line 811: `parseInt(parts[0], 10)`. -/
def rangeStart (range : String) : Option Int :=
  jsParseInt ((rangeParts range).headD [])

/-- Line 812: `parts[1] ? parseInt(parts[1], 10) : fileSize - 1` (a missing or
empty second part is falsy and defaults to `fileSize - 1`). -/
def rangeEnd (range : String) (fileSize : Int) : Option Int :=
  match (rangeParts range)[1]? with
  | some p => if p = [] then some (fileSize - 1) else jsParseInt p
  | none => some (fileSize - 1)

/-- The `if (range)` branch of `GET /uploads/:filename` (lines 809-833).
A `NaN` start skips the 416 guard (`NaN >= fileSize` is false) and reaches
`fs.createReadStream`, which throws on a `NaN`/negative offset or on
`start > end`; the thrown error surfaces through the error middleware as a 500
with no stream opened, modelled by the bare 500 responses. Otherwise for
`start >= fileSize` the source answers 416 before any stream is created, and
in the remaining case it answers 206; node reads bytes `start..end` inclusive,
truncated at end of file. -/
def handleRange (mimeType : String) (fileBytes : List Nat) (range : String) : HttpResponse :=
  match rangeStart range with
  | none => { status := 500, openedStream := false }
  | some s =>
    if s ≥ (fileBytes.length : Int) then
      { status := 416,
        textBody := some ("Requested range not satisfiable\n" ++ toString s ++ " >= "
                          ++ toString ((fileBytes.length : Int))),
        openedStream := false }
    else
      match rangeEnd range (fileBytes.length : Int) with
      | none => { status := 500, openedStream := false }
      | some e =>
        if s < 0 ∨ e < s then { status := 500, openedStream := false }
        else
          { status := 206,
            contentRange := some ("bytes " ++ toString s ++ "-" ++ toString e ++ "/"
                                  ++ toString ((fileBytes.length : Int))),
            acceptRanges := some "bytes",
            contentLength := some (e - s + 1),
            contentType := some mimeType,
            body := (fileBytes.drop s.toNat).take (e.toNat - s.toNat + 1),
            openedStream := true }

/-- The whole `GET /uploads/:filename` handler (lines 787-843): 404 when the
file is absent, 400 when `getMimeType` is not in `mediaMimeTypes`, otherwise
the range branch or a full 200 stream. -/
def serveUpload (store : List StoredFile) (filename : String)
    (rangeHeader : Option String) : HttpResponse :=
  match store.find? (fun f => f.name == filename) with
  | none => { status := 404, textBody := some "File not found." }
  | some f =>
    if mediaMimeTypes.contains (getMimeType filename) = false then
      { status := 400, textBody := some "File is not a supported media type." }
    else
      match rangeHeader with
      | some range => handleRange (getMimeType filename) f.bytes range
      | none =>
        { status := 200,
          contentLength := some ((f.bytes.length : Int)),
          contentType := some (getMimeType filename),
          body := f.bytes,
          openedStream := true }

/-- Which code path a request under `/uploads` takes. -/
inductive UploadsRoute
  | rangeHandler
  | staticServer
deriving DecidableEq, Repr

/-- The `/uploads` middleware (lines 61-70): media MIME types fall through to
the range-aware handler, everything else is served by `express.static`. -/
def uploadsMiddlewareRoute (basename : String) : UploadsRoute :=
  if mediaMimeTypes.contains (getMimeType basename) then UploadsRoute.rangeHandler
  else UploadsRoute.staticServer

/- ### The transcode job of `POST /upload` (lines 412-494) -/

/-- The HLS quality ladder (lines 422-426). -/
structure QualityLevel where
  name : String
  size : String
  bitrate : String
deriving DecidableEq, Repr

/-- The three configured renditions. -/
def qualityLevels : List QualityLevel :=
  [⟨"720p", "1280x720", "2800k"⟩,
   ⟨"480p", "854x480", "1400k"⟩,
   ⟨"360p", "640x360", "800k"⟩]

/-- JS number-to-string coercion used in template literals (`NaN` prints as
the string "NaN"). -/
def jsNumberToString : Option Int → String
  | some n => toString n
  | none => "NaN"

/-- The `parseInt(level.bitrate) * 1000` bandwidth expression of line 480. -/
def bandwidthString (level : QualityLevel) : String :=
  jsNumberToString ((jsParseInt level.bitrate.data).map (fun n => n * 1000))

/-- One `#EXT-X-STREAM-INF` block of the master playlist (line 480). -/
def masterPlaylistLine (level : QualityLevel) : String :=
  "#EXT-X-STREAM-INF:BANDWIDTH=" ++ bandwidthString level ++ ",RESOLUTION="
    ++ level.size ++ "\n" ++ level.name ++ ".m3u8\n"

/-- The synthesized master playlist text (lines 477-481). -/
def masterPlaylist : String :=
  qualityLevels.foldl (fun acc level => acc ++ masterPlaylistLine level)
    "#EXTM3U\n#EXT-X-VERSION:3\n"

/-- One variant entry as enumerated by the master playlist. -/
structure StreamInfEntry where
  bandwidth : String
  resolution : String
  playlist : String
deriving DecidableEq, Repr

/-- The entries the master playlist enumerates, one per configured rendition,
in order. -/
def streamInfEntries : List StreamInfEntry :=
  qualityLevels.map (fun level => ⟨bandwidthString level, level.size, level.name ++ ".m3u8"⟩)

/-- The spec's `TranscodeJob.state`; the source has no explicit state variable,
so the labels name the handler's control-flow positions: the awaited engine
promise rejecting is `Failed` (the `catch` block), its resolving followed by
the master-playlist write completing the handler is `Published`. -/
inductive JobState
  | Pending
  | Running
  | Published
  | Failed
deriving DecidableEq, Repr

/-- Outcome of the awaited ffmpeg invocation (resolve or reject of the promise
wrapped around `ffmpegCommand.run()`, lines 437-473). -/
inductive EngineResult
  | success
  | failure
deriving DecidableEq, Repr

/-- Filesystem facts before the request: whether the HLS output directory and
the master playlist already exist (from an earlier job for the same asset). -/
structure FsState where
  dirExists : Bool
  masterExists : Bool
deriving DecidableEq, Repr

/-- Observable effects of one run of the media branch of `POST /upload`. -/
structure UploadOutcome where
  status : Nat
  mkdirCalled : Bool
  engineInvocations : Nat
  masterWritten : Bool
  masterExistsAfter : Bool
  state : JobState
deriving DecidableEq, Repr

/-- The media branch of `POST /upload` (lines 412-494): `mkdirSync` is guarded
by `existsSync` (lines 416-419); ffmpeg is invoked unconditionally, with no
check of any prior job or published output; on promise rejection the `catch`
answers 500 and the `writeFileSync` of the master playlist (line 483) is never
reached; on resolution the master playlist is written and the handler answers
200. -/
def handleMediaUpload (pre : FsState) (engine : EngineResult) : UploadOutcome :=
  match engine with
  | EngineResult.failure =>
    { status := 500, mkdirCalled := !pre.dirExists, engineInvocations := 1,
      masterWritten := false, masterExistsAfter := pre.masterExists,
      state := JobState.Failed }
  | EngineResult.success =>
    { status := 200, mkdirCalled := !pre.dirExists, engineInvocations := 1,
      masterWritten := true, masterExistsAfter := true,
      state := JobState.Published }

/- ### URL ingestion (`POST /upload-url`, lines 505-648) -/

/-- The spec's `Asset.kind`. -/
inductive AssetKind
  | Raw
  | Media
deriving DecidableEq, Repr

/-- The ingestion-relevant result of `POST /upload-url`. -/
structure UrlIngestResult where
  storedName : String
  mimeType : String
  kind : AssetKind
deriving DecidableEq, Repr

/-- The classification part of `POST /upload-url` (lines 521-559):
`basename` is `path.basename(new URL(fileUrl).pathname)` and `contentType` the
optional `content-type` response header. A falsy basename is replaced by
`downloaded-file` plus a MIME-derived extension; the MIME type itself is the
header defaulted directly to `application/octet-stream`, and `kind` is decided
by membership of that MIME type in `mediaMimeTypes`. -/
def urlIngest (basename : String) (contentType : Option String) : UrlIngestResult :=
  let filename :=
    if basename = "" ∨ basename = "/" then
      "downloaded-file" ++ jsOrDefault (contentType.map getExtensionFromMime) ""
    else basename
  let mimeType := jsOrDefault contentType "application/octet-stream"
  { storedName := sanitizeFilename filename,
    mimeType := mimeType,
    kind := if mediaMimeTypes.contains mimeType then AssetKind.Media else AssetKind.Raw }

/- ### The watch page (`GET /watch/:filename`, lines 651-784) -/

/-- Status of `GET /watch/:filename`: 404 for a missing file, 400 for a MIME
type outside `mediaMimeTypes`, 404 when the master playlist is absent, else
the 200 player page. -/
def watchResponseStatus (store : List StoredFile) (filename : String)
    (masterPlaylistExists : Bool) : Nat :=
  match store.find? (fun f => f.name == filename) with
  | none => 404
  | some _ =>
    if mediaMimeTypes.contains (getMimeType filename) = false then 400
    else if masterPlaylistExists = false then 404
    else 200

/- ### Shared helper lemmas -/

/-- Finding a file in a one-file store always succeeds with that file. -/
theorem find_singleton (name : String) (bytes : List Nat) :
    List.find? (fun f => f.name == name) [(⟨name, bytes⟩ : StoredFile)] = some ⟨name, bytes⟩ := by
  simp [List.find?]

/-- On a one-file store with a media MIME type and a range header, the server
dispatches to the range branch. -/
theorem serveUpload_singleton_media (name : String) (bytes : List Nat) (hdr : String)
    (hm : mediaMimeTypes.contains (getMimeType name) = true) :
    serveUpload [⟨name, bytes⟩] name (some hdr) = handleRange (getMimeType name) bytes hdr := by
  have hmem : getMimeType name ∈ mediaMimeTypes := by simpa using hm
  simp [serveUpload, find_singleton, hmem]

/-- On a one-file store with a MIME type outside the media set, the server
answers 400 for any range header. -/
theorem serveUpload_singleton_unsupported (name : String) (bytes : List Nat)
    (rng : Option String)
    (hm : mediaMimeTypes.contains (getMimeType name) = false) :
    (serveUpload [⟨name, bytes⟩] name rng).status = 400 := by
  have hmem : getMimeType name ∉ mediaMimeTypes := by simpa using hm
  simp [serveUpload, find_singleton, hmem]

/-- Every character produced by the sanitizing map is in the allowed class. -/
theorem sanitized_chars_allowed (cs : List Char) :
    (cs.map (fun c => if isAllowedChar c then c else '_')).all isAllowedChar = true := by
  induction cs with
  | nil => rfl
  | cons c rest ih =>
    simp only [List.map_cons, List.all_cons, Bool.and_eq_true]
    refine ⟨?_, ih⟩
    cases h : isAllowedChar c
    · simp only [h, Bool.false_eq_true, if_false]
      decide
    · simp [h]

/- ### C3 -/

/-- C3: for an existing media file, a range request whose parsed start offset
is at least the file size is answered 416, with a body naming the offending
start and the file size, with no bytes streamed and no read stream opened. -/
theorem claim3_start_beyond_eof_416 :
    ∀ (name : String) (bytes : List Nat) (hdr : String) (s : Int),
      mediaMimeTypes.contains (getMimeType name) = true →
      rangeStart hdr = some s →
      (bytes.length : Int) ≤ s →
      (serveUpload [⟨name, bytes⟩] name (some hdr)).status = 416 ∧
      (serveUpload [⟨name, bytes⟩] name (some hdr)).openedStream = false ∧
      (serveUpload [⟨name, bytes⟩] name (some hdr)).body = [] ∧
      (serveUpload [⟨name, bytes⟩] name (some hdr)).textBody =
        some ("Requested range not satisfiable\n" ++ toString s ++ " >= "
              ++ toString ((bytes.length : Int))) := by
  intro name bytes hdr s hm hs hge
  rw [serveUpload_singleton_media name bytes hdr hm]
  simp only [handleRange, hs]
  rw [if_pos hge]
  exact ⟨rfl, rfl, rfl, rfl⟩

/-- C3 witness at a concrete input: `bytes=5-` on a 3-byte mp4 file. -/
theorem claim3_witness :
    (serveUpload [⟨"video.mp4", [0, 1, 2]⟩] "video.mp4" (some "bytes=5-")).status = 416 ∧
    (serveUpload [⟨"video.mp4", [0, 1, 2]⟩] "video.mp4" (some "bytes=5-")).openedStream = false ∧
    (serveUpload [⟨"video.mp4", [0, 1, 2]⟩] "video.mp4" (some "bytes=5-")).body = [] ∧
    (serveUpload [⟨"video.mp4", [0, 1, 2]⟩] "video.mp4" (some "bytes=5-")).textBody =
      some ("Requested range not satisfiable\n" ++ toString (5 : Int) ++ " >= "
            ++ toString ((([0, 1, 2] : List Nat).length : Int))) :=
  claim3_start_beyond_eof_416 "video.mp4" [0, 1, 2] "bytes=5-" 5 (by decide) (by decide) (by decide)

/- ### C1 -/

/-- C1 counterexample: `Range: bytes=0-99` against an existing 50-byte mp4
file is answered 206 — not the 416 the claim requires for a violated
`end ≤ fileSize - 1` bound — and a read stream is opened. -/
theorem claim1_counterexample :
    (serveUpload [⟨"video.mp4", List.replicate 50 0⟩] "video.mp4" (some "bytes=0-99")).status = 206 ∧
    ¬ (serveUpload [⟨"video.mp4", List.replicate 50 0⟩] "video.mp4" (some "bytes=0-99")).status = 416 ∧
    (serveUpload [⟨"video.mp4", List.replicate 50 0⟩] "video.mp4" (some "bytes=0-99")).openedStream = true := by
  refine ⟨by decide, by decide, by decide⟩

/-- C1 (amended): only `start ≥ fileSize` is rejected. Whenever the parsed
start is below the file size the response is never 416; in particular
`bytes=0-99` on a 50-byte file gets 206 with `Content-Length` 100 while only
the 50 stored bytes are streamed; and a parsed range with `end < start`
(start in bounds) fails read-stream creation and surfaces as 500, not 416. -/
theorem claim1_amended_only_start_checked :
    (∀ (mt : String) (bytes : List Nat) (hdr : String) (s : Int),
      rangeStart hdr = some s → s < (bytes.length : Int) →
      (handleRange mt bytes hdr).status ≠ 416) ∧
    (serveUpload [⟨"video.mp4", List.replicate 50 0⟩] "video.mp4" (some "bytes=0-99")).status = 206 ∧
    (serveUpload [⟨"video.mp4", List.replicate 50 0⟩] "video.mp4" (some "bytes=0-99")).contentLength = some 100 ∧
    (serveUpload [⟨"video.mp4", List.replicate 50 0⟩] "video.mp4" (some "bytes=0-99")).body.length = 50 ∧
    (∀ (mt : String) (bytes : List Nat) (hdr : String) (s e : Int),
      rangeStart hdr = some s → rangeEnd hdr (bytes.length : Int) = some e →
      s < (bytes.length : Int) → e < s →
      (handleRange mt bytes hdr).status = 500 ∧
      (handleRange mt bytes hdr).openedStream = false) := by
  refine ⟨?_, by decide, by decide, by decide, ?_⟩
  · intro mt bytes hdr s hs hlt
    simp only [handleRange, hs]
    rw [if_neg (not_le.mpr hlt)]
    rcases hre : rangeEnd hdr ((bytes.length : Int)) with _ | e
    · simp
    · simp only []
      by_cases hc : s < 0 ∨ e < s
      · rw [if_pos hc]; simp
      · rw [if_neg hc]; simp
  · intro mt bytes hdr s e hs he hlt hes
    simp only [handleRange, hs, he]
    rw [if_neg (not_le.mpr hlt), if_pos (Or.inr hes)]
    exact ⟨rfl, rfl⟩

/-- C1 amended witness: the general parts applied at concrete headers. -/
theorem claim1_amended_witness :
    (handleRange "video/mp4" (List.replicate 50 0) "bytes=0-99").status ≠ 416 ∧
    ((handleRange "video/mp4" [0, 1, 2, 3, 4] "bytes=3-1").status = 500 ∧
     (handleRange "video/mp4" [0, 1, 2, 3, 4] "bytes=3-1").openedStream = false) :=
  ⟨claim1_amended_only_start_checked.1 "video/mp4" (List.replicate 50 0) "bytes=0-99" 0
      (by decide) (by decide),
   claim1_amended_only_start_checked.2.2.2.2 "video/mp4" [0, 1, 2, 3, 4] "bytes=3-1" 3 1
      (by decide) (by decide) (by decide) (by decide)⟩

/- ### C4 -/

/-- C4: for every valid parsed range `0 ≤ start ≤ end < fileSize` the range
branch answers 206 with `Content-Range: bytes start-end/fileSize`,
`Accept-Ranges: bytes`, `Content-Length = end - start + 1` and the MIME
content type, and streams exactly the byte window `[start, end]` of the
stored file, whose length is `end - start + 1`; and a missing or empty end
part of the header defaults the end offset to `fileSize - 1`. -/
theorem claim4_valid_range_206 :
    (∀ (mt : String) (bytes : List Nat) (hdr : String) (s e : Int),
      rangeStart hdr = some s →
      rangeEnd hdr (bytes.length : Int) = some e →
      0 ≤ s → s ≤ e → e < (bytes.length : Int) →
      (handleRange mt bytes hdr).status = 206 ∧
      (handleRange mt bytes hdr).contentRange =
        some ("bytes " ++ toString s ++ "-" ++ toString e ++ "/" ++ toString ((bytes.length : Int))) ∧
      (handleRange mt bytes hdr).acceptRanges = some "bytes" ∧
      (handleRange mt bytes hdr).contentLength = some (e - s + 1) ∧
      (handleRange mt bytes hdr).contentType = some mt ∧
      (handleRange mt bytes hdr).body = (bytes.drop s.toNat).take (e.toNat - s.toNat + 1) ∧
      (handleRange mt bytes hdr).openedStream = true ∧
      ((handleRange mt bytes hdr).body.length : Int) = e - s + 1) ∧
    (∀ (hdr : String) (fileSize : Int),
      ((rangeParts hdr)[1]?).getD [] = [] →
      rangeEnd hdr fileSize = some (fileSize - 1)) := by
  constructor
  · intro mt bytes hdr s e hs he h0 hse hef
    have hslt : s < (bytes.length : Int) := lt_of_le_of_lt hse hef
    simp only [handleRange, hs, he]
    rw [if_neg (not_le.mpr hslt)]
    have hc : ¬ (s < 0 ∨ e < s) := by
      push_neg
      exact ⟨h0, hse⟩
    rw [if_neg hc]
    refine ⟨rfl, rfl, rfl, rfl, rfl, rfl, rfl, ?_⟩
    simp only [List.length_take, List.length_drop]
    omega
  · intro hdr fileSize hd
    rcases hp : (rangeParts hdr)[1]? with _ | p
    · simp [rangeEnd, hp]
    · rw [hp] at hd
      simp only [Option.getD] at hd
      simp [rangeEnd, hp, hd]

/-- C4 witness: `bytes=1-3` and `bytes=1-` on a five-byte mp4 file. -/
theorem claim4_witness :
    ((handleRange "video/mp4" [10, 20, 30, 40, 50] "bytes=1-3").status = 206 ∧
     (handleRange "video/mp4" [10, 20, 30, 40, 50] "bytes=1-3").contentRange =
       some ("bytes " ++ toString (1 : Int) ++ "-" ++ toString (3 : Int) ++ "/"
             ++ toString ((([10, 20, 30, 40, 50] : List Nat).length : Int))) ∧
     (handleRange "video/mp4" [10, 20, 30, 40, 50] "bytes=1-3").acceptRanges = some "bytes" ∧
     (handleRange "video/mp4" [10, 20, 30, 40, 50] "bytes=1-3").contentLength = some ((3 : Int) - 1 + 1) ∧
     (handleRange "video/mp4" [10, 20, 30, 40, 50] "bytes=1-3").contentType = some "video/mp4" ∧
     (handleRange "video/mp4" [10, 20, 30, 40, 50] "bytes=1-3").body =
       (([10, 20, 30, 40, 50] : List Nat).drop (1 : Int).toNat).take ((3 : Int).toNat - (1 : Int).toNat + 1) ∧
     (handleRange "video/mp4" [10, 20, 30, 40, 50] "bytes=1-3").openedStream = true ∧
     (((handleRange "video/mp4" [10, 20, 30, 40, 50] "bytes=1-3").body.length : Int) = (3 : Int) - 1 + 1)) ∧
    rangeEnd "bytes=1-" ((5 : Nat) : Int) = some (((5 : Nat) : Int) - 1) :=
  ⟨claim4_valid_range_206.1 "video/mp4" [10, 20, 30, 40, 50] "bytes=1-3" 1 3
      (by decide) (by decide) (by decide) (by decide) (by decide),
   claim4_valid_range_206.2 "bytes=1-" ((5 : Nat) : Int) (by decide)⟩

/- ### C2 -/

/-- C2: for a fresh asset (no master playlist on disk beforehand), after the
media branch of `POST /upload` runs, the master playlist exists on disk if and
only if the job reached `Published`; it is written exactly when the engine
invocation succeeds; and on engine failure nothing is written, no master
playlist exists, and the request is answered 500. -/
theorem claim2_master_manifest_iff_published :
    ∀ (pre : FsState) (engine : EngineResult),
      pre.masterExists = false →
      ((handleMediaUpload pre engine).masterExistsAfter = true ↔
        (handleMediaUpload pre engine).state = JobState.Published) ∧
      ((handleMediaUpload pre engine).masterWritten = true ↔ engine = EngineResult.success) ∧
      (engine = EngineResult.failure →
        (handleMediaUpload pre engine).status = 500 ∧
        (handleMediaUpload pre engine).masterWritten = false ∧
        (handleMediaUpload pre engine).masterExistsAfter = false) := by
  intro pre engine h
  cases engine <;> simp [handleMediaUpload, h]

/-- C2 witness: a fresh asset whose engine invocation fails. -/
theorem claim2_witness :
    ((handleMediaUpload ⟨false, false⟩ EngineResult.failure).masterExistsAfter = true ↔
      (handleMediaUpload ⟨false, false⟩ EngineResult.failure).state = JobState.Published) ∧
    ((handleMediaUpload ⟨false, false⟩ EngineResult.failure).masterWritten = true ↔
      EngineResult.failure = EngineResult.success) ∧
    (EngineResult.failure = EngineResult.failure →
      (handleMediaUpload ⟨false, false⟩ EngineResult.failure).status = 500 ∧
      (handleMediaUpload ⟨false, false⟩ EngineResult.failure).masterWritten = false ∧
      (handleMediaUpload ⟨false, false⟩ EngineResult.failure).masterExistsAfter = false) :=
  claim2_master_manifest_iff_published ⟨false, false⟩ EngineResult.failure rfl

/- ### C5 -/

/-- C5 counterexample: re-processing an upload for an asset whose output
directory and master playlist already exist (an already-published asset) still
invokes the encoding engine — the invocation count is not zero, so the second
`StartJob` is not a no-op. -/
theorem claim5_counterexample :
    (handleMediaUpload ⟨true, true⟩ EngineResult.success).engineInvocations ≠ 0 ∧
    (handleMediaUpload ⟨true, true⟩ EngineResult.success).engineInvocations = 1 := by
  refine ⟨by decide, rfl⟩

/-- C5 (amended): starting a transcode job is never a no-op: every run of the
media branch invokes the encoding engine exactly once regardless of prior job
state or published output; only the output-directory creation is idempotent
(`mkdirSync` is skipped exactly when the directory already exists). -/
theorem claim5_amended_reencode_always :
    ∀ (pre : FsState) (engine : EngineResult),
      (handleMediaUpload pre engine).engineInvocations = 1 ∧
      (handleMediaUpload pre engine).mkdirCalled = !pre.dirExists := by
  intro pre engine
  cases engine <;> exact ⟨rfl, rfl⟩

/- ### C6 -/

/-- C6 counterexample: the distinct original names "a b.mp4" and "a?b.mp4"
sanitize to the same name, and the multer storage callback stores both at that
same name — the second upload lands on the first Asset's path instead of a
distinct stored Asset. -/
theorem claim6_counterexample :
    ("a b.mp4" : String) ≠ "a?b.mp4" ∧
    multerStoredName "a b.mp4" = multerStoredName "a?b.mp4" ∧
    multerStoredName "a b.mp4" = "a_b.mp4" := by
  refine ⟨by decide, by decide, by decide⟩

/-- C6 (amended): the stored name is the original with every character outside
`[A-Za-z0-9._-]` replaced by an underscore, so sanitized names contain only
those characters; but uploads whose sanitized names collide are stored under
the same name — no uniqueness token distinguishes them. -/
theorem claim6_amended_sanitize_and_overwrite :
    (∀ s : String, (sanitizeFilename s).data.all isAllowedChar = true) ∧
    (∀ s : String, (sanitizeFilename s).data =
      s.data.map (fun c => if isAllowedChar c then c else '_')) ∧
    (∀ o₁ o₂ : String, sanitizeFilename o₁ = sanitizeFilename o₂ →
      multerStoredName o₁ = multerStoredName o₂) := by
  refine ⟨?_, ?_, ?_⟩
  · intro s
    exact sanitized_chars_allowed s.data
  · intro s
    rfl
  · intro o₁ o₂ h
    exact h

/-- C6 amended witness: the colliding pair stored under one common name. -/
theorem claim6_amended_witness :
    multerStoredName "a b.mp4" = multerStoredName "a?b.mp4" :=
  claim6_amended_sanitize_and_overwrite.2.2 "a b.mp4" "a?b.mp4" (by decide)

/- ### C7 -/

set_option maxRecDepth 8000 in
/-- C7: the synthesized master playlist enumerates exactly the three
configured renditions in ladder order, each with BANDWIDTH equal to its
nominal bitrate in bits per second (720p: 2800000, 480p: 1400000,
360p: 800000), RESOLUTION equal to its configured size, and a reference to
that rendition's playlist file; the full playlist text is exactly the
concatenation of those entries. -/
theorem claim7_master_playlist_contents :
    streamInfEntries =
      [{ bandwidth := "2800000", resolution := "1280x720", playlist := "720p.m3u8" },
       { bandwidth := "1400000", resolution := "854x480", playlist := "480p.m3u8" },
       { bandwidth := "800000", resolution := "640x360", playlist := "360p.m3u8" }] ∧
    masterPlaylist =
      "#EXTM3U\n#EXT-X-VERSION:3\n#EXT-X-STREAM-INF:BANDWIDTH=2800000,RESOLUTION=1280x720\n720p.m3u8\n#EXT-X-STREAM-INF:BANDWIDTH=1400000,RESOLUTION=854x480\n480p.m3u8\n#EXT-X-STREAM-INF:BANDWIDTH=800000,RESOLUTION=640x360\n360p.m3u8\n" ∧
    streamInfEntries.length = qualityLevels.length := by
  refine ⟨by decide, by decide, by decide⟩

/- ### C8 -/

/-- C8 counterexample: a URL whose path ends in `movie.mp4` but whose response
carries no content-type header is classified `Raw` with MIME type
`application/octet-stream`, even though extension-derived guessing on that
filename yields `video/mp4`, a media type — the claimed extension fallback for
classification does not exist. -/
theorem claim8_counterexample :
    (urlIngest "movie.mp4" none).kind = AssetKind.Raw ∧
    (urlIngest "movie.mp4" none).mimeType = "application/octet-stream" ∧
    mediaMimeTypes.contains (getMimeType "movie.mp4") = true := by
  refine ⟨by decide, by decide, by decide⟩

/-- C8 (amended): the asset's kind is decided solely by the response
content-type header: a missing header defaults the MIME type directly to
`application/octet-stream` and the kind to `Raw` for every filename; a
non-empty header is taken verbatim; MIME-derived extension guessing is used
only to synthesize a fallback filename when the URL path yields none. -/
theorem claim8_amended_header_only_classification :
    (∀ b : String,
      (urlIngest b none).mimeType = "application/octet-stream" ∧
      (urlIngest b none).kind = AssetKind.Raw) ∧
    (∀ (b ct : String), ct ≠ "" → (urlIngest b (some ct)).mimeType = ct) ∧
    (∀ ct : String, ct ≠ "" →
      (urlIngest "" (some ct)).storedName =
        sanitizeFilename ("downloaded-file" ++ jsOrDefault (some (getExtensionFromMime ct)) "")) := by
  refine ⟨?_, ?_, ?_⟩
  · intro b
    by_cases hb : b = "" ∨ b = "/"
    · simp [urlIngest, jsOrDefault, hb]
      decide
    · simp [urlIngest, jsOrDefault, hb]
      decide
  · intro b ct hct
    by_cases hb : b = "" ∨ b = "/"
    · simp [urlIngest, jsOrDefault, hb, hct]
    · simp [urlIngest, jsOrDefault, hb, hct]
  · intro ct hct
    simp [urlIngest, jsOrDefault]

/-- C8 amended witness: a plain-text header taken verbatim, and a missing
header on a media-looking basename classified Raw. -/
theorem claim8_amended_witness :
    (urlIngest "clip.bin" (some "text/plain")).mimeType = "text/plain" ∧
    (urlIngest "" (some "video/mp4")).storedName =
      sanitizeFilename ("downloaded-file" ++ jsOrDefault (some (getExtensionFromMime "video/mp4")) "") :=
  ⟨claim8_amended_header_only_classification.2.1 "clip.bin" "text/plain" (by decide),
   claim8_amended_header_only_classification.2.2 "video/mp4" (by decide)⟩

/- ### C9 -/

/-- C9 counterexample: a manifest (`master.m3u8`) and a segment
(`segment_000.ts`) are routed by the `/uploads` middleware to the static file
server while a raw media file (`video.mp4`) goes to the range-aware handler —
they are not served through the same mechanism. -/
theorem claim9_counterexample :
    uploadsMiddlewareRoute "master.m3u8" = UploadsRoute.staticServer ∧
    uploadsMiddlewareRoute "segment_000.ts" = UploadsRoute.staticServer ∧
    uploadsMiddlewareRoute "video.mp4" = UploadsRoute.rangeHandler := by
  refine ⟨by decide, by decide, by decide⟩

/-- C9 (amended): manifest and segment files are special-cased away from the
range-aware mechanism: their MIME types (`application/x-mpegURL`,
`video/MP2T`) are not in `mediaMimeTypes`, so every such file is routed to
the static server by the `/uploads` middleware, and the range-serving
endpoint itself would reject it with 400 whatever the Range header. -/
theorem claim9_amended_manifests_served_statically :
    ∀ (name : String) (bytes : List Nat) (rng : Option String),
      (getMimeType name = "application/x-mpegURL" ∨ getMimeType name = "video/MP2T") →
      uploadsMiddlewareRoute name = UploadsRoute.staticServer ∧
      (serveUpload [⟨name, bytes⟩] name rng).status = 400 := by
  intro name bytes rng h
  have hc : mediaMimeTypes.contains (getMimeType name) = false := by
    rcases h with h | h <;> rw [h] <;> decide
  constructor
  · have hmem : getMimeType name ∉ mediaMimeTypes := by simpa using hc
    simp [uploadsMiddlewareRoute, hmem]
  · exact serveUpload_singleton_unsupported name bytes rng hc

/-- C9 amended witness: the master playlist name with a Range header. -/
theorem claim9_amended_witness :
    uploadsMiddlewareRoute "master.m3u8" = UploadsRoute.staticServer ∧
    (serveUpload [⟨"master.m3u8", [35, 69]⟩] "master.m3u8" (some "bytes=0-0")).status = 400 :=
  claim9_amended_manifests_served_statically "master.m3u8" [35, 69] (some "bytes=0-0")
    (Or.inl (by decide))

/- ### C10 -/

/-- C10: `.mkv` and `.avi` filenames map to `video/x-matroska` and
`video/x-msvideo`, neither of which is in `mediaMimeTypes` (which instead
holds `video/mkv` and `video/avi`); an upload declaring `video/mkv` or
`video/avi` is classified media at ingestion, yet for any stored file whose
extension-derived type is one of the two x- types, both the range-serving
endpoint and the watch page reject it with 400. -/
theorem claim10_mkv_avi_mismatch :
    (∀ name : String, extLower name = ".mkv" → getMimeType name = "video/x-matroska") ∧
    (∀ name : String, extLower name = ".avi" → getMimeType name = "video/x-msvideo") ∧
    mediaMimeTypes.contains "video/x-matroska" = false ∧
    mediaMimeTypes.contains "video/x-msvideo" = false ∧
    uploadIsMedia "video/mkv" = true ∧
    uploadIsMedia "video/avi" = true ∧
    (∀ (name : String) (bytes : List Nat) (rng : Option String),
      (getMimeType name = "video/x-matroska" ∨ getMimeType name = "video/x-msvideo") →
      (serveUpload [⟨name, bytes⟩] name rng).status = 400 ∧
      watchResponseStatus [⟨name, bytes⟩] name true = 400) := by
  refine ⟨?_, ?_, by decide, by decide, by decide, by decide, ?_⟩
  · intro name h
    simp only [getMimeType, h]
    decide
  · intro name h
    simp only [getMimeType, h]
    decide
  · intro name bytes rng h
    have hc : mediaMimeTypes.contains (getMimeType name) = false := by
      rcases h with h | h <;> rw [h] <;> decide
    refine ⟨serveUpload_singleton_unsupported name bytes rng hc, ?_⟩
    have hmem : getMimeType name ∉ mediaMimeTypes := by simpa using hc
    simp [watchResponseStatus, find_singleton, hmem]

/-- C10 witness: concrete `.mkv` and `.avi` files. -/
theorem claim10_witness :
    getMimeType "file.mkv" = "video/x-matroska" ∧
    getMimeType "file.avi" = "video/x-msvideo" ∧
    ((serveUpload [⟨"file.avi", [0, 1, 2]⟩] "file.avi" none).status = 400 ∧
     watchResponseStatus [⟨"file.avi", [0, 1, 2]⟩] "file.avi" true = 400) :=
  ⟨claim10_mkv_avi_mismatch.1 "file.mkv" (by decide),
   claim10_mkv_avi_mismatch.2.1 "file.avi" (by decide),
   claim10_mkv_avi_mismatch.2.2.2.2.2.2 "file.avi" [0, 1, 2] none (Or.inr (by decide))⟩
